import Mathlib

/-!
Verification development for a small microcontroller dodging game.

The development shallowly embeds the Python sources:
  * `code.py`     — level-config resolution (`load_level_config`) and the
                    high-score store (`load_all_scores`, `update_high_scores`);
  * `game_engine.py` — class `Game`: the simulation engine (player movement,
                    obstacle motion, collision, scoring, bullets).

Python floats are modelled as rationals (`ℚ`), Python ints as `ℤ`/`ℕ`,
`int(x)` truncation as `pyInt`.  Display-only state (bitmap tiles, labels,
display groups) is omitted: it carries no game logic.  The two sources of
randomness (`random.randint` for obstacle length and x position) are passed
in as oracle inputs of the tick operation.
-/

/-- Python `int(q)` on a float/rational: truncation toward zero.
Both branches divide a nonnegative numerator by a positive denominator,
where all integer-division conventions agree. -/
def pyInt (q : ℚ) : ℤ :=
  if q < 0 then -((-q).num / (((-q).den : ℤ))) else q.num / ((q.den : ℤ))

/-- Python `f"{n:02d}"`: decimal rendering left padded with `0` to width 2. -/
def pad02 (n : ℤ) : String :=
  if 0 ≤ n ∧ n < 10 then "0" ++ toString n else toString n

/-- Python `str.lower()` on the ASCII difficulty names: lowercase each
character. -/
def pyLower (s : String) : String := ⟨s.data.map Char.toLower⟩

/-! ## Level configuration (`code.py`, `load_level_config`) -/

/-- The typed shape of the level-config dictionaries produced by
`load_level_config` in `code.py` and consumed by `Game.__init__`. -/
structure LevelConfig where
  name : String
  scroll_speed : ℚ
  spawn_interval_frames : ℤ
  max_obstacles : ℤ
  obstacle_min_length : ℤ
  obstacle_max_length : ℤ
  tilt_threshold : ℚ
deriving DecidableEq, Repr

/-- Outcome of reading one file from the flash filesystem:
the file is absent (`open` raises `OSError`), its content is not valid JSON
(`json.load` raises `ValueError`), or it parses to a config record. -/
inductive FileReadResult where
  | missing : FileReadResult
  | malformed : FileReadResult
  | content : LevelConfig → FileReadResult
deriving DecidableEq, Repr

/-- `"/levels/{diff_key}_{level_str}.json"` from `load_level_config`. -/
def levelFileName (difficulty : String) (level : ℤ) : String :=
  "/levels/" ++ pyLower difficulty ++ "_" ++ pad02 level ++ ".json"

/-- The formula-based fallback of `load_level_config` (`code.py` lines
146-185): per-difficulty bases perturbed by the clamped level number.
Float literals `0.15`, `1.8`, `2.5`, `1.5` are the exact rationals
`3/20`, `9/5`, `5/2`, `3/2`. -/
def synthLevelConfig (difficulty : String) (level : ℤ) : LevelConfig :=
  let base_scroll : ℚ :=
    if difficulty = "Easy" then 1 else if difficulty = "Medium" then 9/5 else 5/2
  let base_spawn : ℤ :=
    if difficulty = "Easy" then 28 else if difficulty = "Medium" then 22 else 16
  let base_max_obs : ℤ :=
    if difficulty = "Easy" then 3 else if difficulty = "Medium" then 5 else 7
  let obst_min : ℤ :=
    if difficulty = "Easy" then 28 else if difficulty = "Medium" then 22 else 16
  let obst_max : ℤ :=
    if difficulty = "Easy" then 48 else if difficulty = "Medium" then 40 else 34
  let ln : ℤ := max 1 (min level 10)
  { name := difficulty ++ " L" ++ toString ln
    scroll_speed := base_scroll + ((ln - 1 : ℤ) : ℚ) * (3/20)
    spawn_interval_frames := max 6 (base_spawn - (ln - 1) * 2)
    max_obstacles := base_max_obs + Int.fdiv (ln - 1) 3
    obstacle_min_length := obst_min
    obstacle_max_length := obst_max
    tilt_threshold := max (3/2) (3 - ((ln - 1 : ℤ) : ℚ) * (3/20)) }

/-- `load_level_config` from `code.py`: try the JSON override first.  The
`try` block catches only `OSError` (missing file); a `ValueError` from
`json.load` on malformed content is not caught and propagates to the
caller, modelled as `Except.error`. -/
def load_level_config (fs : String → FileReadResult) (difficulty : String)
    (level : ℤ) : Except String LevelConfig :=
  match fs (levelFileName difficulty level) with
  | .content cfg => .ok cfg
  | .malformed => .error "ValueError"
  | .missing => .ok (synthLevelConfig difficulty level)

/-! ## High-score store (`code.py`, `load_all_scores` / `update_high_scores`) -/

/-- One entry of the persisted score list: `{"name": str, "score": int}`. -/
structure ScoreEntry where
  name : String
  score : ℤ
deriving DecidableEq, Repr

/-- The comparison `update_high_scores` sorts by: descending score
(`key=lambda e: e.get("score", 0), reverse=True`). -/
def scoreGE (a b : ScoreEntry) : Prop := b.score ≤ a.score

instance : DecidableRel scoreGE := fun a b =>
  inferInstanceAs (Decidable (b.score ≤ a.score))

instance : IsTotal ScoreEntry scoreGE := ⟨fun a b => le_total b.score a.score⟩

instance : IsTrans ScoreEntry scoreGE := ⟨fun _ _ _ h1 h2 => le_trans h2 h1⟩

/-- The persisted `/scores.json` blob: absent, unparsable, or a mapping from
`"<difficulty>_<level:02d>"` keys to entry lists (a Python dict, modelled as
a total function whose default value is the empty list, matching
`data.get(key, [])`). -/
inductive ScoresFile where
  | missing : ScoresFile
  | malformed : ScoresFile
  | content : (String → List ScoreEntry) → ScoresFile

/-- `load_all_scores` from `code.py`: missing file (`OSError`) and corrupted
JSON (`ValueError`) both yield the empty dict. -/
def load_all_scores (f : ScoresFile) : String → List ScoreEntry :=
  match f with
  | .missing => fun _ => []
  | .malformed => fun _ => []
  | .content data => data

/-- The `"{}_{}"` key used by `update_high_scores`. -/
def scoreKey (difficulty : String) (level : ℤ) : String :=
  pyLower difficulty ++ "_" ++ pad02 level

/-- `update_high_scores` from `code.py`: load the blob, append the new entry
(empty name defaults to `"PLAYER"`), sort descending by score (Python's
stable sort = `insertionSort` over the non-strict `scoreGE`), keep the top
5, write the whole blob back (`save_all_scores`), and return the kept list. -/
def update_high_scores (f : ScoresFile) (difficulty : String) (level : ℤ)
    (player_name : String) (score : ℤ) : ScoresFile × List ScoreEntry :=
  let data := load_all_scores f
  let key := scoreKey difficulty level
  let entries := data key ++
    [{ name := if player_name = "" then "PLAYER" else player_name, score := score }]
  let entries2 := (List.insertionSort scoreGE entries).take 5
  (.content (fun k => if k = key then entries2 else data k), entries2)

/-! ## Game engine (`game_engine.py`, class `Game`) -/

/-- One obstacle: `{"tile": ..., "y": float, "x": float, "width": int,
"dodged": bool}` (the display tile is omitted). -/
structure Obstacle where
  x : ℚ
  y : ℚ
  width : ℤ
  dodged : Bool
deriving DecidableEq, Repr

/-- The abstract state of a `Game` instance: every `__init__` attribute that
carries game logic.  Display objects (group, tiles, labels, palettes, the
bullet-slot tiles) and the player name are presentation only and omitted.
Attributes assigned fixed constants in `__init__` (`player_width`,
`player_height`, `horizontal_step`, `max_bullets`, `tilt_cooldown`,
`vertical_step`, `bottom_y`) are modelled as the constant definitions
below. -/
structure Game where
  width : ℤ
  height : ℤ
  scroll_speed : ℚ
  spawn_interval : ℤ
  max_obstacles : ℤ
  obstacle_min_length : ℤ
  obstacle_max_length : ℤ
  score : ℕ
  player_x : ℚ
  player_y : ℚ
  vertical_level : ℤ
  bullets : ℤ
  obstacles : List Obstacle
  frame_count : ℕ
  dodged_count : ℕ
  tilt_threshold : ℚ
  last_tilt_time : ℚ
  game_over : Bool
deriving DecidableEq, Repr

/-- `self.player_width = 7`. -/
def playerWidth : ℤ := 7

/-- `self.player_height = 11`. -/
def playerHeight : ℤ := 11

/-- `self.horizontal_step = 3`. -/
def horizontalStep : ℤ := 3

/-- `self.max_bullets = 3`. -/
def maxBullets : ℤ := 3

/-- `self.tilt_cooldown = 0.3` seconds. -/
def tiltCooldown : ℚ := 3/10

/-- `self.vertical_step = self.height // 4` (Python floor division). -/
def Game.vertical_step (s : Game) : ℤ := Int.fdiv s.height 4

/-- `self.bottom_y = self.height - self.player_height - 2`. -/
def Game.bottom_y (s : Game) : ℤ := s.height - playerHeight - 2

/-- `Game.__init__(root_group, level_config, player_name, width, height)`:
the initial engine state.  Missing-key defaults of `level_config.get` are
subsumed by the typed `LevelConfig`. -/
def Game.init (cfg : LevelConfig) (width height : ℤ) : Game :=
  { width := width
    height := height
    scroll_speed := cfg.scroll_speed
    spawn_interval := cfg.spawn_interval_frames
    max_obstacles := cfg.max_obstacles
    obstacle_min_length := cfg.obstacle_min_length
    obstacle_max_length := cfg.obstacle_max_length
    score := 0
    player_x := ((Int.fdiv width 2 : ℤ) : ℚ)
    player_y := ((height - playerHeight - 2 : ℤ) : ℚ)
    vertical_level := 0
    bullets := 0
    obstacles := []
    frame_count := 0
    dodged_count := 0
    tilt_threshold := cfg.tilt_threshold
    last_tilt_time := 0
    game_over := false }

/-- `Game._update_player_pos`: clamp the vertical level to `0..2`, place the
player y from the clamped level, clamp the player x to
`[0, width - player_width]`. -/
def Game.updatePlayerPos (s : Game) : Game :=
  let lv : ℤ := if s.vertical_level < 0 then 0 else s.vertical_level
  let lv2 : ℤ := if lv > 2 then 2 else lv
  let px : ℚ := if s.player_x < 0 then 0 else s.player_x
  let px2 : ℚ := if px > ((s.width - playerWidth : ℤ) : ℚ)
    then ((s.width - playerWidth : ℤ) : ℚ) else px
  { s with vertical_level := lv2
           player_y := ((s.bottom_y - lv2 * s.vertical_step : ℤ) : ℚ)
           player_x := px2 }

/-- `Game._check_collision`: axis-aligned overlap between the player's
`7 × 11` box and the obstacle's 1-pixel-tall box, on truncated-int
coordinates. -/
def Game.checkCollision (s : Game) (obs : Obstacle) : Bool :=
  decide (pyInt s.player_x < pyInt obs.x + obs.width
    ∧ pyInt s.player_x + playerWidth > pyInt obs.x
    ∧ pyInt s.player_y < pyInt obs.y + 1
    ∧ pyInt s.player_y + playerHeight > pyInt obs.y)

/-- `obs["y"] += self.scroll_speed`. -/
def advanceObs (speed : ℚ) (o : Obstacle) : Obstacle := { o with y := o.y + speed }

/-- `int(y) > self.height`: the obstacle left the screen. -/
def offScreen (height : ℤ) (o : Obstacle) : Bool := decide (pyInt o.y > height)

/-- The obstacle is being removed off-screen for the first time
(`int(y) > height` and `not obs["dodged"]`): it counts as a dodge. -/
def isNewDodge (height : ℤ) (o : Obstacle) : Bool := offScreen height o && !o.dodged

/-- `obs["dodged"] = True` when the obstacle is dodged for the first time. -/
def flagObs (height : ℤ) (o : Obstacle) : Obstacle :=
  if isNewDodge height o then { o with dodged := true } else o

/-- The score/dodge/bullet bookkeeping of one loop iteration of
`_handle_obstacles` for an (already advanced) obstacle: a first-time
off-screen obstacle adds one to the score and the dodge counter and, when
the new counter is a multiple of 4 and bullets are below the maximum, one
bullet. -/
def dodgeStep (height : ℤ) (s : Game) (o : Obstacle) : Game :=
  if isNewDodge height o then
    { s with score := s.score + 1
             dodged_count := s.dodged_count + 1
             bullets := if (s.dodged_count + 1) % 4 = 0 ∧ s.bullets < maxBullets
               then s.bullets + 1 else s.bullets }
  else s

/-- The `for obs in self.obstacles` loop of `Game._handle_obstacles`,
followed by the `to_remove` removal loop.  Each obstacle is advanced, then
collision-checked; a hit sets `game_over` and returns at once, leaving the
already-processed prefix (advanced, dodge-flagged), the advanced collider
and the untouched rest in place with nothing removed.  When the loop
completes, exactly the off-screen obstacles are removed. -/
def Game.hoGo (s : Game) (acc : List Obstacle) : List Obstacle → Game
  | [] => { s with obstacles := acc.filter (fun o => !offScreen s.height o) }
  | o :: rest =>
    if s.checkCollision (advanceObs s.scroll_speed o) then
      { s with game_over := true
               obstacles := acc ++ advanceObs s.scroll_speed o :: rest }
    else
      Game.hoGo (dodgeStep s.height s (advanceObs s.scroll_speed o))
        (acc ++ [flagObs s.height (advanceObs s.scroll_speed o)]) rest

/-- `Game._handle_obstacles`. -/
def Game.handleObstacles (s : Game) : Game :=
  if s.game_over then s else Game.hoGo s [] s.obstacles

/-- `Game.handle_encoder_delta(delta)`: shift the player horizontally. -/
def Game.handle_encoder_delta (s : Game) (delta : ℤ) : Game :=
  if s.game_over then s
  else if delta = 0 then s
  else Game.updatePlayerPos
    { s with player_x := s.player_x + ((delta * horizontalStep : ℤ) : ℚ) }

/-- `Game.handle_button_press()`: spend one bullet to destroy the first
obstacle, if any. -/
def Game.handle_button_press (s : Game) : Game :=
  if s.game_over then s
  else if s.bullets ≤ 0 then s
  else match s.obstacles with
    | [] => s
    | _ :: rest =>
      { s with obstacles := rest, bullets := s.bullets - 1, score := s.score + 1 }

/-- The tilt-handling block of `Game.update`: gated on the cooldown,
increment/decrement the vertical level and reset the cooldown timer on a
change, then `_update_player_pos()`. -/
def Game.tiltStep (s : Game) (accel_y now : ℚ) : Game :=
  if now - s.last_tilt_time > tiltCooldown then
    Game.updatePlayerPos
      (if accel_y < -s.tilt_threshold then
        (if s.vertical_level < 2 then
          { s with vertical_level := s.vertical_level + 1, last_tilt_time := now }
         else s)
       else if accel_y > s.tilt_threshold then
        (if s.vertical_level > 0 then
          { s with vertical_level := s.vertical_level - 1, last_tilt_time := now }
         else s)
       else s)
  else s

/-- `Game._spawn_obstacle`: append a fresh obstacle at `y = 0` unless the
collection is full.  `rndLen` and `rndX` stand for the two `random.randint`
draws (obstacle length and x position). -/
def Game.spawnObstacle (s : Game) (rndLen rndX : ℤ) : Game :=
  if (s.obstacles.length : ℤ) ≥ s.max_obstacles then s
  else { s with obstacles :=
    s.obstacles ++ [{ x := (rndX : ℚ), y := 0, width := rndLen, dodged := false }] }

/-- The spawn gate of `Game.update`: every `spawn_interval` frames. -/
def Game.spawnStep (s : Game) (rndLen rndX : ℤ) : Game :=
  if s.spawn_interval > 0 ∧ (s.frame_count : ℤ) % s.spawn_interval = 0 then
    Game.spawnObstacle s rndLen rndX
  else s

/-- `Game.update(accel_y, now)`: one simulation frame — frame counter, tilt
handling, periodic spawn, obstacle motion/collision/removal. -/
def Game.update (s : Game) (accel_y now : ℚ) (rndLen rndX : ℤ) : Game :=
  if s.game_over then s
  else
    Game.handleObstacles
      (Game.spawnStep
        (Game.tiltStep { s with frame_count := s.frame_count + 1 } accel_y now)
        rndLen rndX)

/-- One public engine operation, with the oracle inputs of a tick
(accelerometer reading, monotonic time, the two `randint` draws). -/
inductive Op where
  | fire : Op
  | move : ℤ → Op
  | tick : ℚ → ℚ → ℤ → ℤ → Op
deriving DecidableEq, Repr

/-- Dispatch one operation on the engine. -/
def Game.step (s : Game) : Op → Game
  | .fire => Game.handle_button_press s
  | .move d => Game.handle_encoder_delta s d
  | .tick a t rl rx => Game.update s a t rl rx

/-- Run a sequence of engine operations. -/
def Game.runOps (s : Game) : List Op → Game
  | [] => s
  | op :: ops => Game.runOps (Game.step s op) ops

/-! ## Derived descriptions of the obstacle loop -/

/-- Advance and dodge-flag every obstacle of a list (the per-element data
effect of a completed `_handle_obstacles` loop). -/
def advFlag (height : ℤ) (speed : ℚ) (l : List Obstacle) : List Obstacle :=
  l.map (fun o => flagObs height (advanceObs speed o))

/-- How many obstacles of `l` are dodged for the first time during one
`_handle_obstacles` pass (off-screen after advancing, not yet flagged). -/
def newDodges (height : ℤ) (speed : ℚ) (l : List Obstacle) : ℕ :=
  (l.filter (fun o => isNewDodge height (advanceObs speed o))).length

/-- Iterate the dodge bookkeeping `k` times on a (dodge counter, bullets)
pair: each dodge increments the counter and grants a bullet exactly when
the new counter is a multiple of 4 while bullets are below `maxBullets`. -/
def dcbFold : ℕ → ℤ → ℕ → ℕ × ℤ
  | c, b, 0 => (c, b)
  | c, b, Nat.succ k =>
    dcbFold (c + 1) (if (c + 1) % 4 = 0 ∧ b < maxBullets then b + 1 else b) k

/-- Modelled from the spec: the two-phase obstacle step that claim C4
describes — first advance every obstacle's y by `scroll_speed`, then test
collision per obstacle in spawn order, transitioning to GameOver at the
first overlap with all (advanced) obstacles left as-is; only when no
obstacle collides are the off-screen obstacles scored and removed.  To be
compared with `Game.handleObstacles`, the loop the code actually runs. -/
def Game.handleObstaclesSpec (s : Game) : Game :=
  if s.game_over then s
  else
    let moved := s.obstacles.map (advanceObs s.scroll_speed)
    if moved.any (fun o => s.checkCollision o) then
      { s with game_over := true, obstacles := moved }
    else
      let k := (moved.filter (fun o => isNewDodge s.height o)).length
      { s with obstacles := (moved.map (flagObs s.height)).filter
                 (fun o => !offScreen s.height o)
               score := s.score + k
               dodged_count := (dcbFold s.dodged_count s.bullets k).1
               bullets := (dcbFold s.dodged_count s.bullets k).2 }

/-! ## Frame lemmas: which fields each helper leaves untouched -/


/-! ## Preservation lemmas: fields each helper leaves untouched -/

@[simp] theorem updatePlayerPos_width (s : Game) :
    (Game.updatePlayerPos s).width = s.width := by
  rfl

@[simp] theorem updatePlayerPos_height (s : Game) :
    (Game.updatePlayerPos s).height = s.height := by
  rfl

@[simp] theorem updatePlayerPos_scroll_speed (s : Game) :
    (Game.updatePlayerPos s).scroll_speed = s.scroll_speed := by
  rfl

@[simp] theorem updatePlayerPos_spawn_interval (s : Game) :
    (Game.updatePlayerPos s).spawn_interval = s.spawn_interval := by
  rfl

@[simp] theorem updatePlayerPos_max_obstacles (s : Game) :
    (Game.updatePlayerPos s).max_obstacles = s.max_obstacles := by
  rfl

@[simp] theorem updatePlayerPos_obstacle_min_length (s : Game) :
    (Game.updatePlayerPos s).obstacle_min_length = s.obstacle_min_length := by
  rfl

@[simp] theorem updatePlayerPos_obstacle_max_length (s : Game) :
    (Game.updatePlayerPos s).obstacle_max_length = s.obstacle_max_length := by
  rfl

@[simp] theorem updatePlayerPos_score (s : Game) :
    (Game.updatePlayerPos s).score = s.score := by
  rfl

@[simp] theorem updatePlayerPos_bullets (s : Game) :
    (Game.updatePlayerPos s).bullets = s.bullets := by
  rfl

@[simp] theorem updatePlayerPos_obstacles (s : Game) :
    (Game.updatePlayerPos s).obstacles = s.obstacles := by
  rfl

@[simp] theorem updatePlayerPos_frame_count (s : Game) :
    (Game.updatePlayerPos s).frame_count = s.frame_count := by
  rfl

@[simp] theorem updatePlayerPos_dodged_count (s : Game) :
    (Game.updatePlayerPos s).dodged_count = s.dodged_count := by
  rfl

@[simp] theorem updatePlayerPos_tilt_threshold (s : Game) :
    (Game.updatePlayerPos s).tilt_threshold = s.tilt_threshold := by
  rfl

@[simp] theorem updatePlayerPos_last_tilt_time (s : Game) :
    (Game.updatePlayerPos s).last_tilt_time = s.last_tilt_time := by
  rfl

@[simp] theorem updatePlayerPos_game_over (s : Game) :
    (Game.updatePlayerPos s).game_over = s.game_over := by
  rfl

@[simp] theorem tiltStep_width (s : Game) (a t : ℚ) :
    (Game.tiltStep s a t).width = s.width := by
  unfold Game.tiltStep Game.updatePlayerPos
  (repeat' split) <;> rfl

@[simp] theorem tiltStep_height (s : Game) (a t : ℚ) :
    (Game.tiltStep s a t).height = s.height := by
  unfold Game.tiltStep Game.updatePlayerPos
  (repeat' split) <;> rfl

@[simp] theorem tiltStep_scroll_speed (s : Game) (a t : ℚ) :
    (Game.tiltStep s a t).scroll_speed = s.scroll_speed := by
  unfold Game.tiltStep Game.updatePlayerPos
  (repeat' split) <;> rfl

@[simp] theorem tiltStep_spawn_interval (s : Game) (a t : ℚ) :
    (Game.tiltStep s a t).spawn_interval = s.spawn_interval := by
  unfold Game.tiltStep Game.updatePlayerPos
  (repeat' split) <;> rfl

@[simp] theorem tiltStep_max_obstacles (s : Game) (a t : ℚ) :
    (Game.tiltStep s a t).max_obstacles = s.max_obstacles := by
  unfold Game.tiltStep Game.updatePlayerPos
  (repeat' split) <;> rfl

@[simp] theorem tiltStep_obstacle_min_length (s : Game) (a t : ℚ) :
    (Game.tiltStep s a t).obstacle_min_length = s.obstacle_min_length := by
  unfold Game.tiltStep Game.updatePlayerPos
  (repeat' split) <;> rfl

@[simp] theorem tiltStep_obstacle_max_length (s : Game) (a t : ℚ) :
    (Game.tiltStep s a t).obstacle_max_length = s.obstacle_max_length := by
  unfold Game.tiltStep Game.updatePlayerPos
  (repeat' split) <;> rfl

@[simp] theorem tiltStep_score (s : Game) (a t : ℚ) :
    (Game.tiltStep s a t).score = s.score := by
  unfold Game.tiltStep Game.updatePlayerPos
  (repeat' split) <;> rfl

@[simp] theorem tiltStep_bullets (s : Game) (a t : ℚ) :
    (Game.tiltStep s a t).bullets = s.bullets := by
  unfold Game.tiltStep Game.updatePlayerPos
  (repeat' split) <;> rfl

@[simp] theorem tiltStep_obstacles (s : Game) (a t : ℚ) :
    (Game.tiltStep s a t).obstacles = s.obstacles := by
  unfold Game.tiltStep Game.updatePlayerPos
  (repeat' split) <;> rfl

@[simp] theorem tiltStep_frame_count (s : Game) (a t : ℚ) :
    (Game.tiltStep s a t).frame_count = s.frame_count := by
  unfold Game.tiltStep Game.updatePlayerPos
  (repeat' split) <;> rfl

@[simp] theorem tiltStep_dodged_count (s : Game) (a t : ℚ) :
    (Game.tiltStep s a t).dodged_count = s.dodged_count := by
  unfold Game.tiltStep Game.updatePlayerPos
  (repeat' split) <;> rfl

@[simp] theorem tiltStep_tilt_threshold (s : Game) (a t : ℚ) :
    (Game.tiltStep s a t).tilt_threshold = s.tilt_threshold := by
  unfold Game.tiltStep Game.updatePlayerPos
  (repeat' split) <;> rfl

@[simp] theorem tiltStep_game_over (s : Game) (a t : ℚ) :
    (Game.tiltStep s a t).game_over = s.game_over := by
  unfold Game.tiltStep Game.updatePlayerPos
  (repeat' split) <;> rfl

@[simp] theorem spawnStep_width (s : Game) (rl rx : ℤ) :
    (Game.spawnStep s rl rx).width = s.width := by
  unfold Game.spawnStep Game.spawnObstacle
  (repeat' split) <;> rfl

@[simp] theorem spawnStep_height (s : Game) (rl rx : ℤ) :
    (Game.spawnStep s rl rx).height = s.height := by
  unfold Game.spawnStep Game.spawnObstacle
  (repeat' split) <;> rfl

@[simp] theorem spawnStep_scroll_speed (s : Game) (rl rx : ℤ) :
    (Game.spawnStep s rl rx).scroll_speed = s.scroll_speed := by
  unfold Game.spawnStep Game.spawnObstacle
  (repeat' split) <;> rfl

@[simp] theorem spawnStep_spawn_interval (s : Game) (rl rx : ℤ) :
    (Game.spawnStep s rl rx).spawn_interval = s.spawn_interval := by
  unfold Game.spawnStep Game.spawnObstacle
  (repeat' split) <;> rfl

@[simp] theorem spawnStep_max_obstacles (s : Game) (rl rx : ℤ) :
    (Game.spawnStep s rl rx).max_obstacles = s.max_obstacles := by
  unfold Game.spawnStep Game.spawnObstacle
  (repeat' split) <;> rfl

@[simp] theorem spawnStep_obstacle_min_length (s : Game) (rl rx : ℤ) :
    (Game.spawnStep s rl rx).obstacle_min_length = s.obstacle_min_length := by
  unfold Game.spawnStep Game.spawnObstacle
  (repeat' split) <;> rfl

@[simp] theorem spawnStep_obstacle_max_length (s : Game) (rl rx : ℤ) :
    (Game.spawnStep s rl rx).obstacle_max_length = s.obstacle_max_length := by
  unfold Game.spawnStep Game.spawnObstacle
  (repeat' split) <;> rfl

@[simp] theorem spawnStep_score (s : Game) (rl rx : ℤ) :
    (Game.spawnStep s rl rx).score = s.score := by
  unfold Game.spawnStep Game.spawnObstacle
  (repeat' split) <;> rfl

@[simp] theorem spawnStep_player_x (s : Game) (rl rx : ℤ) :
    (Game.spawnStep s rl rx).player_x = s.player_x := by
  unfold Game.spawnStep Game.spawnObstacle
  (repeat' split) <;> rfl

@[simp] theorem spawnStep_player_y (s : Game) (rl rx : ℤ) :
    (Game.spawnStep s rl rx).player_y = s.player_y := by
  unfold Game.spawnStep Game.spawnObstacle
  (repeat' split) <;> rfl

@[simp] theorem spawnStep_vertical_level (s : Game) (rl rx : ℤ) :
    (Game.spawnStep s rl rx).vertical_level = s.vertical_level := by
  unfold Game.spawnStep Game.spawnObstacle
  (repeat' split) <;> rfl

@[simp] theorem spawnStep_bullets (s : Game) (rl rx : ℤ) :
    (Game.spawnStep s rl rx).bullets = s.bullets := by
  unfold Game.spawnStep Game.spawnObstacle
  (repeat' split) <;> rfl

@[simp] theorem spawnStep_frame_count (s : Game) (rl rx : ℤ) :
    (Game.spawnStep s rl rx).frame_count = s.frame_count := by
  unfold Game.spawnStep Game.spawnObstacle
  (repeat' split) <;> rfl

@[simp] theorem spawnStep_dodged_count (s : Game) (rl rx : ℤ) :
    (Game.spawnStep s rl rx).dodged_count = s.dodged_count := by
  unfold Game.spawnStep Game.spawnObstacle
  (repeat' split) <;> rfl

@[simp] theorem spawnStep_tilt_threshold (s : Game) (rl rx : ℤ) :
    (Game.spawnStep s rl rx).tilt_threshold = s.tilt_threshold := by
  unfold Game.spawnStep Game.spawnObstacle
  (repeat' split) <;> rfl

@[simp] theorem spawnStep_last_tilt_time (s : Game) (rl rx : ℤ) :
    (Game.spawnStep s rl rx).last_tilt_time = s.last_tilt_time := by
  unfold Game.spawnStep Game.spawnObstacle
  (repeat' split) <;> rfl

@[simp] theorem spawnStep_game_over (s : Game) (rl rx : ℤ) :
    (Game.spawnStep s rl rx).game_over = s.game_over := by
  unfold Game.spawnStep Game.spawnObstacle
  (repeat' split) <;> rfl

@[simp] theorem dodgeStep_width (h : ℤ) (s : Game) (o : Obstacle) :
    (dodgeStep h s o).width = s.width := by
  unfold dodgeStep
  (repeat' split) <;> rfl

@[simp] theorem dodgeStep_height (h : ℤ) (s : Game) (o : Obstacle) :
    (dodgeStep h s o).height = s.height := by
  unfold dodgeStep
  (repeat' split) <;> rfl

@[simp] theorem dodgeStep_scroll_speed (h : ℤ) (s : Game) (o : Obstacle) :
    (dodgeStep h s o).scroll_speed = s.scroll_speed := by
  unfold dodgeStep
  (repeat' split) <;> rfl

@[simp] theorem dodgeStep_spawn_interval (h : ℤ) (s : Game) (o : Obstacle) :
    (dodgeStep h s o).spawn_interval = s.spawn_interval := by
  unfold dodgeStep
  (repeat' split) <;> rfl

@[simp] theorem dodgeStep_max_obstacles (h : ℤ) (s : Game) (o : Obstacle) :
    (dodgeStep h s o).max_obstacles = s.max_obstacles := by
  unfold dodgeStep
  (repeat' split) <;> rfl

@[simp] theorem dodgeStep_obstacle_min_length (h : ℤ) (s : Game) (o : Obstacle) :
    (dodgeStep h s o).obstacle_min_length = s.obstacle_min_length := by
  unfold dodgeStep
  (repeat' split) <;> rfl

@[simp] theorem dodgeStep_obstacle_max_length (h : ℤ) (s : Game) (o : Obstacle) :
    (dodgeStep h s o).obstacle_max_length = s.obstacle_max_length := by
  unfold dodgeStep
  (repeat' split) <;> rfl

@[simp] theorem dodgeStep_player_x (h : ℤ) (s : Game) (o : Obstacle) :
    (dodgeStep h s o).player_x = s.player_x := by
  unfold dodgeStep
  (repeat' split) <;> rfl

@[simp] theorem dodgeStep_player_y (h : ℤ) (s : Game) (o : Obstacle) :
    (dodgeStep h s o).player_y = s.player_y := by
  unfold dodgeStep
  (repeat' split) <;> rfl

@[simp] theorem dodgeStep_vertical_level (h : ℤ) (s : Game) (o : Obstacle) :
    (dodgeStep h s o).vertical_level = s.vertical_level := by
  unfold dodgeStep
  (repeat' split) <;> rfl

@[simp] theorem dodgeStep_obstacles (h : ℤ) (s : Game) (o : Obstacle) :
    (dodgeStep h s o).obstacles = s.obstacles := by
  unfold dodgeStep
  (repeat' split) <;> rfl

@[simp] theorem dodgeStep_frame_count (h : ℤ) (s : Game) (o : Obstacle) :
    (dodgeStep h s o).frame_count = s.frame_count := by
  unfold dodgeStep
  (repeat' split) <;> rfl

@[simp] theorem dodgeStep_tilt_threshold (h : ℤ) (s : Game) (o : Obstacle) :
    (dodgeStep h s o).tilt_threshold = s.tilt_threshold := by
  unfold dodgeStep
  (repeat' split) <;> rfl

@[simp] theorem dodgeStep_last_tilt_time (h : ℤ) (s : Game) (o : Obstacle) :
    (dodgeStep h s o).last_tilt_time = s.last_tilt_time := by
  unfold dodgeStep
  (repeat' split) <;> rfl

@[simp] theorem dodgeStep_game_over (h : ℤ) (s : Game) (o : Obstacle) :
    (dodgeStep h s o).game_over = s.game_over := by
  unfold dodgeStep
  (repeat' split) <;> rfl

theorem checkCollision_dodgeStep (h : ℤ) (s : Game) (o q : Obstacle) :
    (dodgeStep h s o).checkCollision q = s.checkCollision q := by
  unfold dodgeStep Game.checkCollision
  split <;> rfl

@[simp] theorem hoGo_width (l : List Obstacle) : ∀ (s : Game) (acc : List Obstacle),
    (Game.hoGo s acc l).width = s.width := by
  induction l with
  | nil => intro s acc; rfl
  | cons o rest ih =>
    intro s acc
    unfold Game.hoGo
    split
    · rfl
    · exact (ih _ _).trans (dodgeStep_width _ _ _)

@[simp] theorem hoGo_height (l : List Obstacle) : ∀ (s : Game) (acc : List Obstacle),
    (Game.hoGo s acc l).height = s.height := by
  induction l with
  | nil => intro s acc; rfl
  | cons o rest ih =>
    intro s acc
    unfold Game.hoGo
    split
    · rfl
    · exact (ih _ _).trans (dodgeStep_height _ _ _)

@[simp] theorem hoGo_scroll_speed (l : List Obstacle) : ∀ (s : Game) (acc : List Obstacle),
    (Game.hoGo s acc l).scroll_speed = s.scroll_speed := by
  induction l with
  | nil => intro s acc; rfl
  | cons o rest ih =>
    intro s acc
    unfold Game.hoGo
    split
    · rfl
    · exact (ih _ _).trans (dodgeStep_scroll_speed _ _ _)

@[simp] theorem hoGo_spawn_interval (l : List Obstacle) : ∀ (s : Game) (acc : List Obstacle),
    (Game.hoGo s acc l).spawn_interval = s.spawn_interval := by
  induction l with
  | nil => intro s acc; rfl
  | cons o rest ih =>
    intro s acc
    unfold Game.hoGo
    split
    · rfl
    · exact (ih _ _).trans (dodgeStep_spawn_interval _ _ _)

@[simp] theorem hoGo_max_obstacles (l : List Obstacle) : ∀ (s : Game) (acc : List Obstacle),
    (Game.hoGo s acc l).max_obstacles = s.max_obstacles := by
  induction l with
  | nil => intro s acc; rfl
  | cons o rest ih =>
    intro s acc
    unfold Game.hoGo
    split
    · rfl
    · exact (ih _ _).trans (dodgeStep_max_obstacles _ _ _)

@[simp] theorem hoGo_obstacle_min_length (l : List Obstacle) : ∀ (s : Game) (acc : List Obstacle),
    (Game.hoGo s acc l).obstacle_min_length = s.obstacle_min_length := by
  induction l with
  | nil => intro s acc; rfl
  | cons o rest ih =>
    intro s acc
    unfold Game.hoGo
    split
    · rfl
    · exact (ih _ _).trans (dodgeStep_obstacle_min_length _ _ _)

@[simp] theorem hoGo_obstacle_max_length (l : List Obstacle) : ∀ (s : Game) (acc : List Obstacle),
    (Game.hoGo s acc l).obstacle_max_length = s.obstacle_max_length := by
  induction l with
  | nil => intro s acc; rfl
  | cons o rest ih =>
    intro s acc
    unfold Game.hoGo
    split
    · rfl
    · exact (ih _ _).trans (dodgeStep_obstacle_max_length _ _ _)

@[simp] theorem hoGo_player_x (l : List Obstacle) : ∀ (s : Game) (acc : List Obstacle),
    (Game.hoGo s acc l).player_x = s.player_x := by
  induction l with
  | nil => intro s acc; rfl
  | cons o rest ih =>
    intro s acc
    unfold Game.hoGo
    split
    · rfl
    · exact (ih _ _).trans (dodgeStep_player_x _ _ _)

@[simp] theorem hoGo_player_y (l : List Obstacle) : ∀ (s : Game) (acc : List Obstacle),
    (Game.hoGo s acc l).player_y = s.player_y := by
  induction l with
  | nil => intro s acc; rfl
  | cons o rest ih =>
    intro s acc
    unfold Game.hoGo
    split
    · rfl
    · exact (ih _ _).trans (dodgeStep_player_y _ _ _)

@[simp] theorem hoGo_vertical_level (l : List Obstacle) : ∀ (s : Game) (acc : List Obstacle),
    (Game.hoGo s acc l).vertical_level = s.vertical_level := by
  induction l with
  | nil => intro s acc; rfl
  | cons o rest ih =>
    intro s acc
    unfold Game.hoGo
    split
    · rfl
    · exact (ih _ _).trans (dodgeStep_vertical_level _ _ _)

@[simp] theorem hoGo_frame_count (l : List Obstacle) : ∀ (s : Game) (acc : List Obstacle),
    (Game.hoGo s acc l).frame_count = s.frame_count := by
  induction l with
  | nil => intro s acc; rfl
  | cons o rest ih =>
    intro s acc
    unfold Game.hoGo
    split
    · rfl
    · exact (ih _ _).trans (dodgeStep_frame_count _ _ _)

@[simp] theorem hoGo_tilt_threshold (l : List Obstacle) : ∀ (s : Game) (acc : List Obstacle),
    (Game.hoGo s acc l).tilt_threshold = s.tilt_threshold := by
  induction l with
  | nil => intro s acc; rfl
  | cons o rest ih =>
    intro s acc
    unfold Game.hoGo
    split
    · rfl
    · exact (ih _ _).trans (dodgeStep_tilt_threshold _ _ _)

@[simp] theorem hoGo_last_tilt_time (l : List Obstacle) : ∀ (s : Game) (acc : List Obstacle),
    (Game.hoGo s acc l).last_tilt_time = s.last_tilt_time := by
  induction l with
  | nil => intro s acc; rfl
  | cons o rest ih =>
    intro s acc
    unfold Game.hoGo
    split
    · rfl
    · exact (ih _ _).trans (dodgeStep_last_tilt_time _ _ _)

@[simp] theorem handleObstacles_width (s : Game) :
    (Game.handleObstacles s).width = s.width := by
  unfold Game.handleObstacles
  split
  · rfl
  · exact hoGo_width _ _ _

@[simp] theorem handleObstacles_height (s : Game) :
    (Game.handleObstacles s).height = s.height := by
  unfold Game.handleObstacles
  split
  · rfl
  · exact hoGo_height _ _ _

@[simp] theorem handleObstacles_scroll_speed (s : Game) :
    (Game.handleObstacles s).scroll_speed = s.scroll_speed := by
  unfold Game.handleObstacles
  split
  · rfl
  · exact hoGo_scroll_speed _ _ _

@[simp] theorem handleObstacles_spawn_interval (s : Game) :
    (Game.handleObstacles s).spawn_interval = s.spawn_interval := by
  unfold Game.handleObstacles
  split
  · rfl
  · exact hoGo_spawn_interval _ _ _

@[simp] theorem handleObstacles_max_obstacles (s : Game) :
    (Game.handleObstacles s).max_obstacles = s.max_obstacles := by
  unfold Game.handleObstacles
  split
  · rfl
  · exact hoGo_max_obstacles _ _ _

@[simp] theorem handleObstacles_obstacle_min_length (s : Game) :
    (Game.handleObstacles s).obstacle_min_length = s.obstacle_min_length := by
  unfold Game.handleObstacles
  split
  · rfl
  · exact hoGo_obstacle_min_length _ _ _

@[simp] theorem handleObstacles_obstacle_max_length (s : Game) :
    (Game.handleObstacles s).obstacle_max_length = s.obstacle_max_length := by
  unfold Game.handleObstacles
  split
  · rfl
  · exact hoGo_obstacle_max_length _ _ _

@[simp] theorem handleObstacles_player_x (s : Game) :
    (Game.handleObstacles s).player_x = s.player_x := by
  unfold Game.handleObstacles
  split
  · rfl
  · exact hoGo_player_x _ _ _

@[simp] theorem handleObstacles_player_y (s : Game) :
    (Game.handleObstacles s).player_y = s.player_y := by
  unfold Game.handleObstacles
  split
  · rfl
  · exact hoGo_player_y _ _ _

@[simp] theorem handleObstacles_vertical_level (s : Game) :
    (Game.handleObstacles s).vertical_level = s.vertical_level := by
  unfold Game.handleObstacles
  split
  · rfl
  · exact hoGo_vertical_level _ _ _

@[simp] theorem handleObstacles_frame_count (s : Game) :
    (Game.handleObstacles s).frame_count = s.frame_count := by
  unfold Game.handleObstacles
  split
  · rfl
  · exact hoGo_frame_count _ _ _

@[simp] theorem handleObstacles_tilt_threshold (s : Game) :
    (Game.handleObstacles s).tilt_threshold = s.tilt_threshold := by
  unfold Game.handleObstacles
  split
  · rfl
  · exact hoGo_tilt_threshold _ _ _

@[simp] theorem handleObstacles_last_tilt_time (s : Game) :
    (Game.handleObstacles s).last_tilt_time = s.last_tilt_time := by
  unfold Game.handleObstacles
  split
  · rfl
  · exact hoGo_last_tilt_time _ _ _

/-- The score/dodge/bullet state after the `_handle_obstacles` loop has
processed a prefix of the obstacle list without any collision. -/
def procState (s : Game) : List Obstacle → Game
  | [] => s
  | p :: pre => procState (dodgeStep s.height s (advanceObs s.scroll_speed p)) pre

@[simp] theorem procState_height (l : List Obstacle) : ∀ s : Game,
    (procState s l).height = s.height := by
  induction l with
  | nil => intro s; rfl
  | cons p pre ih => intro s; exact (ih _).trans (dodgeStep_height _ _ _)

@[simp] theorem procState_scroll_speed (l : List Obstacle) : ∀ s : Game,
    (procState s l).scroll_speed = s.scroll_speed := by
  induction l with
  | nil => intro s; rfl
  | cons p pre ih => intro s; exact (ih _).trans (dodgeStep_scroll_speed _ _ _)

theorem hoGo_append (pre : List Obstacle) :
    ∀ (s : Game) (acc rest : List Obstacle),
    (∀ p ∈ pre, s.checkCollision (advanceObs s.scroll_speed p) = false) →
    Game.hoGo s acc (pre ++ rest) =
      Game.hoGo (procState s pre)
        (acc ++ advFlag s.height s.scroll_speed pre) rest := by
  induction pre with
  | nil =>
    intro s acc rest _
    simp [procState, advFlag]
  | cons p pre ih =>
    intro s acc rest h
    have hp : s.checkCollision (advanceObs s.scroll_speed p) = false :=
      h p (List.mem_cons_self _ _)
    show Game.hoGo s acc (p :: (pre ++ rest)) = _
    simp only [Game.hoGo]
    split
    · next hcol => rw [hp] at hcol; cases hcol
    · next _ =>
      rw [ih _ _ _ (fun q hq => by
        rw [checkCollision_dodgeStep, dodgeStep_scroll_speed]
        exact h q (List.mem_cons_of_mem _ hq))]
      congr 1
      simp [advFlag, List.append_assoc]

attribute [ext] Game

theorem procState_eq (l : List Obstacle) : ∀ s : Game,
    procState s l =
      { s with score := s.score + newDodges s.height s.scroll_speed l
               dodged_count :=
                 (dcbFold s.dodged_count s.bullets (newDodges s.height s.scroll_speed l)).1
               bullets :=
                 (dcbFold s.dodged_count s.bullets (newDodges s.height s.scroll_speed l)).2 } := by
  induction l with
  | nil =>
    intro s
    simp [procState, newDodges, dcbFold]
  | cons p pre ih =>
    intro s
    show procState (dodgeStep s.height s (advanceObs s.scroll_speed p)) pre = _
    rw [ih]
    by_cases hd : isNewDodge s.height (advanceObs s.scroll_speed p) = true
    · simp only [dodgeStep, hd, if_true, newDodges, List.filter_cons, ite_true]
      ext <;> simp [dcbFold]
      omega
    · have hd' : isNewDodge s.height (advanceObs s.scroll_speed p) = false := by
        revert hd; cases isNewDodge s.height (advanceObs s.scroll_speed p) <;> simp
      simp only [dodgeStep, hd', Bool.false_eq_true, if_false, newDodges,
        List.filter_cons, ite_false]

theorem checkCollision_procState (l : List Obstacle) : ∀ (s : Game) (q : Obstacle),
    (procState s l).checkCollision q = s.checkCollision q := by
  induction l with
  | nil => intro s q; rfl
  | cons p pre ih => intro s q; exact (ih _ _).trans (checkCollision_dodgeStep _ _ _ _)

theorem handleObstacles_noCollision (s : Game) (hgo : s.game_over = false)
    (h : ∀ o ∈ s.obstacles, s.checkCollision (advanceObs s.scroll_speed o) = false) :
    Game.handleObstacles s =
      { s with obstacles := (advFlag s.height s.scroll_speed s.obstacles).filter
                 (fun o => !offScreen s.height o)
               score := s.score + newDodges s.height s.scroll_speed s.obstacles
               dodged_count := (dcbFold s.dodged_count s.bullets
                 (newDodges s.height s.scroll_speed s.obstacles)).1
               bullets := (dcbFold s.dodged_count s.bullets
                 (newDodges s.height s.scroll_speed s.obstacles)).2 } := by
  unfold Game.handleObstacles
  rw [if_neg (by rw [hgo]; exact Bool.false_ne_true)]
  have step := hoGo_append s.obstacles s [] [] h
  rw [List.append_nil, List.nil_append] at step
  rw [step]
  simp only [Game.hoGo]
  rw [procState_eq]

theorem handleObstacles_collision (s : Game) (pre post : List Obstacle) (o : Obstacle)
    (hgo : s.game_over = false) (hobs : s.obstacles = pre ++ o :: post)
    (hpre : ∀ p ∈ pre, s.checkCollision (advanceObs s.scroll_speed p) = false)
    (hcol : s.checkCollision (advanceObs s.scroll_speed o) = true) :
    Game.handleObstacles s =
      { s with game_over := true
               obstacles := advFlag s.height s.scroll_speed pre ++
                 advanceObs s.scroll_speed o :: post
               score := s.score + newDodges s.height s.scroll_speed pre
               dodged_count := (dcbFold s.dodged_count s.bullets
                 (newDodges s.height s.scroll_speed pre)).1
               bullets := (dcbFold s.dodged_count s.bullets
                 (newDodges s.height s.scroll_speed pre)).2 } := by
  unfold Game.handleObstacles
  rw [if_neg (by rw [hgo]; exact Bool.false_ne_true)]
  rw [hobs, hoGo_append pre s [] (o :: post) hpre]
  simp only [Game.hoGo, checkCollision_procState, procState_scroll_speed,
    procState_height, hcol, if_true, List.nil_append]
  rw [procState_eq]

/-! ## GameOver is absorbing -/

theorem step_gameOver (s : Game) (op : Op) (h : s.game_over = true) :
    Game.step s op = s := by
  cases op with
  | fire =>
    show Game.handle_button_press s = s
    unfold Game.handle_button_press
    rw [if_pos h]
  | move d =>
    show Game.handle_encoder_delta s d = s
    unfold Game.handle_encoder_delta
    rw [if_pos h]
  | tick a t rl rx =>
    show Game.update s a t rl rx = s
    unfold Game.update
    rw [if_pos h]

theorem runOps_gameOver (ops : List Op) : ∀ s : Game, s.game_over = true →
    Game.runOps s ops = s := by
  induction ops with
  | nil => intro s _; rfl
  | cons op ops ih =>
    intro s h
    show Game.runOps (Game.step s op) ops = s
    rw [step_gameOver s op h, ih s h]

/-! ## The bullets invariant -/

theorem hoGo_bullets_inv (l : List Obstacle) : ∀ (s : Game) (acc : List Obstacle),
    0 ≤ s.bullets → s.bullets ≤ maxBullets →
    0 ≤ (Game.hoGo s acc l).bullets ∧ (Game.hoGo s acc l).bullets ≤ maxBullets := by
  induction l with
  | nil => intro s acc h0 h3; exact ⟨h0, h3⟩
  | cons o rest ih =>
    intro s acc h0 h3
    unfold Game.hoGo
    split
    · exact ⟨h0, h3⟩
    · apply ih
      · unfold dodgeStep
        split
        · show (0:ℤ) ≤ if (s.dodged_count + 1) % 4 = 0 ∧ s.bullets < maxBullets
            then s.bullets + 1 else s.bullets
          split <;> omega
        · exact h0
      · unfold dodgeStep
        split
        · show (if (s.dodged_count + 1) % 4 = 0 ∧ s.bullets < maxBullets
            then s.bullets + 1 else s.bullets) ≤ maxBullets
          split
          · next hc => omega
          · exact h3
        · exact h3

theorem step_bullets_inv (s : Game) (op : Op)
    (h0 : 0 ≤ s.bullets) (h3 : s.bullets ≤ maxBullets) :
    0 ≤ (Game.step s op).bullets ∧ (Game.step s op).bullets ≤ maxBullets := by
  cases op with
  | fire =>
    show 0 ≤ (Game.handle_button_press s).bullets ∧
      (Game.handle_button_press s).bullets ≤ maxBullets
    unfold Game.handle_button_press
    split
    · exact ⟨h0, h3⟩
    · split
      · exact ⟨h0, h3⟩
      · rename_i hgo hb
        split
        · exact ⟨h0, h3⟩
        · constructor
          · show (0:ℤ) ≤ s.bullets - 1
            omega
          · show s.bullets - 1 ≤ maxBullets
            omega
  | move d =>
    show 0 ≤ (Game.handle_encoder_delta s d).bullets ∧
      (Game.handle_encoder_delta s d).bullets ≤ maxBullets
    unfold Game.handle_encoder_delta
    split
    · exact ⟨h0, h3⟩
    · split
      · exact ⟨h0, h3⟩
      · rw [updatePlayerPos_bullets]
        exact ⟨h0, h3⟩
  | tick a t rl rx =>
    show 0 ≤ (Game.update s a t rl rx).bullets ∧
      (Game.update s a t rl rx).bullets ≤ maxBullets
    unfold Game.update
    split
    · exact ⟨h0, h3⟩
    · unfold Game.handleObstacles
      split
      · rw [spawnStep_bullets, tiltStep_bullets]
        exact ⟨h0, h3⟩
      · apply hoGo_bullets_inv
        · rw [spawnStep_bullets, tiltStep_bullets]
          exact h0
        · rw [spawnStep_bullets, tiltStep_bullets]
          exact h3

theorem runOps_bullets_inv (ops : List Op) : ∀ s : Game,
    0 ≤ s.bullets → s.bullets ≤ maxBullets →
    0 ≤ (Game.runOps s ops).bullets ∧ (Game.runOps s ops).bullets ≤ maxBullets := by
  induction ops with
  | nil => intro s h0 h3; exact ⟨h0, h3⟩
  | cons op ops ih =>
    intro s h0 h3
    obtain ⟨g0, g3⟩ := step_bullets_inv s op h0 h3
    exact ih (Game.step s op) g0 g3

/-! ## Claims about the level-config provider (C1, C7) -/

/-- A filesystem on which every read raises `ValueError` inside `json.load`
(file present, content malformed). -/
def fsAllMalformed : String → FileReadResult := fun _ => .malformed

/-- A filesystem on which every read raises `OSError` (no file). -/
def fsAllMissing : String → FileReadResult := fun _ => .missing

/-- C1, counterexample: the claim says a malformed override file also falls
back to the synthesized config and never raises; but on a filesystem whose
`easy_01` override is present and malformed, `load_level_config` propagates
the `ValueError` to the caller instead of returning a config. -/
theorem claim1_cex_malformed_raises :
    load_level_config fsAllMalformed "Easy" 1 = .error "ValueError" := rfl

/-- C1 (amended): if reading the persisted override fails because the file
is missing (`OSError`), `load_level_config` returns the formula-synthesized
`LevelConfig` and raises nothing; a malformed override, however, raises
`ValueError` to the caller. -/
theorem claim1_missing_falls_back (fs : String → FileReadResult)
    (difficulty : String) (level : ℤ)
    (h : fs (levelFileName difficulty level) = .missing) :
    load_level_config fs difficulty level = .ok (synthLevelConfig difficulty level) ∧
    load_level_config fsAllMalformed difficulty level = .error "ValueError" := by
  constructor
  · unfold load_level_config
    rw [h]
  · rfl

theorem claim1_witness :
    fsAllMissing (levelFileName "Easy" 2) = .missing ∧
    (load_level_config fsAllMissing "Easy" 2 = .ok (synthLevelConfig "Easy" 2) ∧
      load_level_config fsAllMalformed "Easy" 2 = .error "ValueError") :=
  ⟨rfl, claim1_missing_falls_back fsAllMissing "Easy" 2 rfl⟩

/-- An override record that violates both floors of the synthesis formula. -/
def badOverride : LevelConfig :=
  { name := "bad", scroll_speed := 1, spawn_interval_frames := 1,
    max_obstacles := 1, obstacle_min_length := 1, obstacle_max_length := 1,
    tilt_threshold := 0 }

/-- A filesystem carrying `badOverride` as the `easy_01` level file. -/
def fsWithBadOverride : String → FileReadResult := fun k =>
  if k = levelFileName "Easy" 1 then .content badOverride else .missing

/-- C7, counterexample: an on-disk override is returned verbatim by
`load_level_config`, with no floor validation, so the resolved config can
have `spawn_interval_frames < 6` and `tilt_threshold < 1.5`. -/
theorem claim7_cex_override_bypasses_floors :
    load_level_config fsWithBadOverride "Easy" 1 = .ok badOverride ∧
    badOverride.spawn_interval_frames < 6 ∧
    badOverride.tilt_threshold < 3/2 := by
  refine ⟨?_, by decide, by norm_num [badOverride]⟩
  unfold load_level_config fsWithBadOverride
  rw [if_pos rfl]

/-- C7 (amended): whenever no override file applies (the read raises
`OSError`), `load_level_config` returns the formula-synthesized config,
which satisfies `spawn_interval_frames ≥ 6` and `tilt_threshold ≥ 1.5` for
every difficulty string and every level number. -/
theorem claim7_floors_of_synthesis (fs : String → FileReadResult)
    (difficulty : String) (level : ℤ)
    (h : fs (levelFileName difficulty level) = .missing) :
    load_level_config fs difficulty level = .ok (synthLevelConfig difficulty level) ∧
    6 ≤ (synthLevelConfig difficulty level).spawn_interval_frames ∧
    (3/2 : ℚ) ≤ (synthLevelConfig difficulty level).tilt_threshold := by
  refine ⟨?_, ?_, ?_⟩
  · unfold load_level_config
    rw [h]
  · show (6:ℤ) ≤ max 6 _
    exact le_max_left _ _
  · show (3/2 : ℚ) ≤ max (3/2) _
    exact le_max_left _ _

theorem claim7_witness :
    fsAllMissing (levelFileName "Hard" 10) = .missing ∧
    (load_level_config fsAllMissing "Hard" 10 = .ok (synthLevelConfig "Hard" 10) ∧
      6 ≤ (synthLevelConfig "Hard" 10).spawn_interval_frames ∧
      (3/2 : ℚ) ≤ (synthLevelConfig "Hard" 10).tilt_threshold) :=
  ⟨rfl, claim7_floors_of_synthesis fsAllMissing "Hard" 10 rfl⟩

/-! ## Claim about the high-score store (C8) -/

/-- C8: for every store state and key, `update_high_scores` followed by
`load_all_scores` at the same key yields at most 5 entries sorted descending
by score (and the list `update_high_scores` returns is exactly what a
subsequent load sees); in particular recording AAA/50 then BBB/90 for
(Easy, 3) and loading key `easy_03` yields `[{BBB,90},{AAA,50}]`. -/
theorem claim8_record_then_load :
    (∀ (f : ScoresFile) (difficulty : String) (level : ℤ) (nm : String) (sc : ℤ),
      List.Sorted scoreGE
        (load_all_scores (update_high_scores f difficulty level nm sc).1
          (scoreKey difficulty level)) ∧
      (load_all_scores (update_high_scores f difficulty level nm sc).1
          (scoreKey difficulty level)).length ≤ 5 ∧
      (update_high_scores f difficulty level nm sc).2 =
        load_all_scores (update_high_scores f difficulty level nm sc).1
          (scoreKey difficulty level))
    ∧ load_all_scores
        (update_high_scores
          (update_high_scores .missing "Easy" 3 "AAA" 50).1 "Easy" 3 "BBB" 90).1
        (scoreKey "Easy" 3)
      = [{ name := "BBB", score := 90 }, { name := "AAA", score := 50 }]
    ∧ scoreKey "Easy" 3 = "easy_03" := by
  refine ⟨fun f difficulty level nm sc => ?_, by decide, by decide⟩
  have hload : load_all_scores (update_high_scores f difficulty level nm sc).1
      (scoreKey difficulty level) =
      (List.insertionSort scoreGE (load_all_scores f (scoreKey difficulty level) ++
        [{ name := if nm = "" then "PLAYER" else nm, score := sc }])).take 5 := by
    show (if scoreKey difficulty level = scoreKey difficulty level then _ else _) = _
    rw [if_pos rfl]
  rw [hload]
  refine ⟨?_, ?_, rfl⟩
  · exact List.Pairwise.sublist (List.take_sublist _ _)
      (List.sorted_insertionSort scoreGE _)
  · rw [List.length_take]
    exact min_le_left _ _

/-! ## Claims about the engine operations (C2, C3, C9) -/

/-- C2: `handle_button_press` is a no-op (the whole engine state unchanged)
when the game is over, the bullet count is 0, or there are no obstacles;
otherwise it removes exactly the first (earliest-spawned) obstacle,
decrements the bullet count by one and increments the score by one, leaving
every other field unchanged. -/
theorem claim2_fireBullet (s : Game) :
    ((s.game_over = true ∨ s.bullets = 0 ∨ s.obstacles = []) →
      Game.handle_button_press s = s) ∧
    (s.game_over = false → 0 < s.bullets → s.obstacles ≠ [] →
      Game.handle_button_press s =
        { s with obstacles := s.obstacles.tail
                 bullets := s.bullets - 1
                 score := s.score + 1 }) := by
  constructor
  · rintro (hg | hb | ho)
    · unfold Game.handle_button_press
      rw [if_pos hg]
    · unfold Game.handle_button_press
      split
      · rfl
      · rw [if_pos (by omega : s.bullets ≤ 0)]
    · unfold Game.handle_button_press
      split
      · rfl
      · split
        · rfl
        · rw [ho]
  · intro hg hb ho
    unfold Game.handle_button_press
    rw [if_neg (by rw [hg]; exact Bool.false_ne_true),
      if_neg (by omega : ¬ s.bullets ≤ 0)]
    obtain ⟨a, rest, hcons⟩ := List.exists_cons_of_ne_nil ho
    rw [hcons]
    rfl

/-- The Easy level-1 config, used to build concrete engine states. -/
def cfgEx : LevelConfig := synthLevelConfig "Easy" 1

/-- A concrete obstacle far from the player. -/
def obsA : Obstacle := { x := 10, y := 5, width := 8, dodged := false }

/-- A concrete active engine state with bullets and one obstacle. -/
def sFire : Game :=
  { Game.init cfgEx 128 64 with bullets := 2, obstacles := [obsA], score := 7 }

theorem claim2_witness :
    (sFire.game_over = false ∧ 0 < sFire.bullets ∧ sFire.obstacles ≠ []) ∧
    Game.handle_button_press sFire =
      { sFire with obstacles := sFire.obstacles.tail
                   bullets := sFire.bullets - 1
                   score := sFire.score + 1 } :=
  ⟨⟨rfl, by decide, by decide⟩,
    (claim2_fireBullet sFire).2 rfl (by decide) (by decide)⟩

/-- C3: starting from a freshly constructed engine, after any sequence of
fire / move / tick operations the bullet count stays within
`[0, maxBullets]`, and `maxBullets = 3`. -/
theorem claim3_bullets_range (cfg : LevelConfig) (width height : ℤ)
    (ops : List Op) :
    0 ≤ (Game.runOps (Game.init cfg width height) ops).bullets ∧
    (Game.runOps (Game.init cfg width height) ops).bullets ≤ maxBullets ∧
    maxBullets = 3 := by
  obtain ⟨h0, h3⟩ :=
    runOps_bullets_inv ops (Game.init cfg width height) le_rfl
      (by show (0:ℤ) ≤ maxBullets; decide)
  exact ⟨h0, h3, rfl⟩

/-- C9: GameOver is absorbing — once `game_over` is set, any sequence of
`handle_encoder_delta`, `handle_button_press` and `update` calls leaves the
engine state (hence also the `game_over` flag) exactly as it is. -/
theorem claim9_gameOver_absorbing (s : Game) (ops : List Op)
    (h : s.game_over = true) :
    Game.runOps s ops = s ∧ (Game.runOps s ops).game_over = true := by
  have hr := runOps_gameOver ops s h
  exact ⟨hr, by rw [hr]; exact h⟩

/-- A concrete engine state that is already game over. -/
def sOver : Game := { Game.init cfgEx 128 64 with game_over := true }

/-- A concrete operation sequence exercising all three entry points. -/
def opsEx : List Op := [Op.fire, Op.move 1, Op.tick 0 1 30 40, Op.fire]

theorem claim9_witness :
    sOver.game_over = true ∧
    (Game.runOps sOver opsEx = sOver ∧
      (Game.runOps sOver opsEx).game_over = true) :=
  ⟨rfl, claim9_gameOver_absorbing sOver opsEx rfl⟩

/-! ## Claim C5: dodge scoring and bullet grants -/

/-- C5: on a tick where no advanced obstacle overlaps the player, exactly
the obstacles crossing the bottom for the first time are counted: each adds
1 to the score and 1 to the dodge counter, all off-screen obstacles are
removed, and bullets evolve by `dcbFold` — +1 exactly at those dodges where
the cumulative dodge counter becomes divisible by 4 while bullets are below
`maxBullets`.  Destroying an obstacle via `handle_button_press` never
changes the dodge counter, so four consecutive dodges grant exactly one
bullet. -/
theorem claim5_dodge_scoring (s : Game) (hgo : s.game_over = false)
    (hnc : ∀ o ∈ s.obstacles,
      s.checkCollision (advanceObs s.scroll_speed o) = false) :
    Game.handleObstacles s =
      { s with obstacles := (advFlag s.height s.scroll_speed s.obstacles).filter
                 (fun o => !offScreen s.height o)
               score := s.score + newDodges s.height s.scroll_speed s.obstacles
               dodged_count := (dcbFold s.dodged_count s.bullets
                 (newDodges s.height s.scroll_speed s.obstacles)).1
               bullets := (dcbFold s.dodged_count s.bullets
                 (newDodges s.height s.scroll_speed s.obstacles)).2 } ∧
    (Game.handle_button_press s).dodged_count = s.dodged_count :=
  ⟨handleObstacles_noCollision s hgo hnc, by
    unfold Game.handle_button_press
    (repeat' split) <;> rfl⟩

/-- A concrete obstacle that crosses the bottom on the next tick, out of the
player's x range. -/
def obsCross : Obstacle := { x := 100, y := 61, width := 5, dodged := false }

/-- A concrete active state with four crossing obstacles, no bullets, dodge
counter 0. -/
def sDodge : Game :=
  { width := 128, height := 64, scroll_speed := 10, spawn_interval := 28,
    max_obstacles := 3, obstacle_min_length := 28, obstacle_max_length := 48,
    score := 0, player_x := 64, player_y := 51, vertical_level := 0,
    bullets := 0, obstacles := [obsCross, obsCross, obsCross, obsCross],
    frame_count := 0, dodged_count := 0, tilt_threshold := 3,
    last_tilt_time := 0, game_over := false }

theorem claim5_witness :
    (sDodge.game_over = false ∧ ∀ o ∈ sDodge.obstacles,
        sDodge.checkCollision (advanceObs sDodge.scroll_speed o) = false) ∧
    (Game.handleObstacles sDodge =
      { sDodge with obstacles := [], score := 4, dodged_count := 4, bullets := 1 } ∧
     (Game.handle_button_press sDodge).dodged_count = sDodge.dodged_count) := by
  have hc5 : ∀ o ∈ sDodge.obstacles,
      sDodge.checkCollision (advanceObs sDodge.scroll_speed o) = false := by
    intro o ho
    have hoc : o = obsCross := by
      simp only [sDodge, List.mem_cons, List.not_mem_nil, or_false] at ho
      rcases ho with h | h | h | h <;> exact h
    subst hoc
    norm_num [Game.checkCollision, advanceObs, obsCross, sDodge, pyInt,
      playerWidth, playerHeight]
  have hmain := claim5_dodge_scoring sDodge rfl hc5
  have hnd : newDodges sDodge.height sDodge.scroll_speed sDodge.obstacles = 4 := by
    norm_num [newDodges, sDodge, isNewDodge, offScreen, advanceObs, obsCross,
      pyInt, List.filter]
  have hflt : (advFlag sDodge.height sDodge.scroll_speed sDodge.obstacles).filter
      (fun o => !offScreen sDodge.height o) = [] := by
    norm_num [advFlag, flagObs, isNewDodge, offScreen, advanceObs, obsCross,
      sDodge, pyInt, List.filter]
  refine ⟨⟨rfl, hc5⟩, ?_, hmain.2⟩
  rw [hmain.1, hnd, hflt]
  rfl

/-! ## Claims C4 and C10: the collision tick -/

/-- An obstacle that crosses the bottom this tick without touching the
player. -/
def obsDodge0 : Obstacle := { x := 0, y := 61, width := 5, dodged := false }

/-- An obstacle that overlaps the player after advancing. -/
def obsHit : Obstacle := { x := 60, y := 53, width := 20, dodged := false }

/-- An obstacle still high up the screen, spawned after the collider. -/
def obsBehind : Obstacle := { x := 10, y := 5, width := 8, dodged := false }

/-- A concrete active state in which, during one `_handle_obstacles` pass,
the first obstacle is dodged, the second collides, the third is untouched. -/
def sCol : Game :=
  { width := 128, height := 64, scroll_speed := 4, spawn_interval := 28,
    max_obstacles := 5, obstacle_min_length := 28, obstacle_max_length := 48,
    score := 10, player_x := 64, player_y := 51, vertical_level := 0,
    bullets := 0, obstacles := [obsDodge0, obsHit, obsBehind],
    frame_count := 5, dodged_count := 3, tilt_threshold := 3,
    last_tilt_time := 0, game_over := false }

theorem sCol_pre_clear : ∀ p ∈ [obsDodge0],
    sCol.checkCollision (advanceObs sCol.scroll_speed p) = false := by
  intro p hp
  have hoc : p = obsDodge0 := by
    simpa using hp
  subst hoc
  norm_num [Game.checkCollision, advanceObs, obsDodge0, sCol, pyInt,
    playerWidth, playerHeight]

theorem sCol_hit : sCol.checkCollision (advanceObs sCol.scroll_speed obsHit) = true := by
  norm_num [Game.checkCollision, advanceObs, obsHit, sCol, pyInt,
    playerWidth, playerHeight]

/-- C4, counterexample: the claim describes a two-phase tick (advance all
obstacles, then collision-test).  On `sCol` the code's interleaved loop
stops at the second obstacle and leaves the third at `y = 5` (never
advanced), while the two-phase description yields `y = 9`; the result
states differ. -/
theorem claim4_cex_two_phase :
    ((Game.handleObstacles sCol).obstacles.map Obstacle.y = [65, 57, 5] ∧
     (Game.handleObstaclesSpec sCol).obstacles.map Obstacle.y = [65, 57, 9]) ∧
    Game.handleObstacles sCol ≠ Game.handleObstaclesSpec sCol := by
  have hco := handleObstacles_collision sCol [obsDodge0] [obsBehind] obsHit
    rfl rfl sCol_pre_clear sCol_hit
  have h1 : (Game.handleObstacles sCol).obstacles.map Obstacle.y = [65, 57, 5] := by
    rw [hco]
    show ((advFlag sCol.height sCol.scroll_speed [obsDodge0] ++
      advanceObs sCol.scroll_speed obsHit :: [obsBehind]).map Obstacle.y) = _
    norm_num [advFlag, flagObs, isNewDodge, offScreen, advanceObs, pyInt,
      obsDodge0, obsHit, obsBehind, sCol]
  have h2 : (Game.handleObstaclesSpec sCol).obstacles.map Obstacle.y = [65, 57, 9] := by
    unfold Game.handleObstaclesSpec
    rw [if_neg (by norm_num [sCol] : ¬ sCol.game_over = true)]
    rw [if_pos]
    · norm_num [advanceObs, obsDodge0, obsHit, obsBehind, sCol]
    · refine List.any_eq_true.mpr ⟨advanceObs sCol.scroll_speed obsHit, ?_, sCol_hit⟩
      simp [sCol]
  refine ⟨⟨h1, h2⟩, fun h => ?_⟩
  have : ([65, 57, 5] : List ℚ) = [65, 57, 9] := by
    rw [← h1, ← h2, h]
  norm_num at this

/-- C4 (amended): each obstacle is advanced and then immediately
collision-tested, in spawn order; at the first overlap the engine
transitions to GameOver at once, obstacles later in spawn order keep their
previous (un-advanced) positions for that tick, and no obstacle is removed
— the dodge bookkeeping of the already-processed prefix has been applied. -/
theorem claim4_interleaved (s : Game) (pre post : List Obstacle) (o : Obstacle)
    (hgo : s.game_over = false) (hobs : s.obstacles = pre ++ o :: post)
    (hpre : ∀ p ∈ pre, s.checkCollision (advanceObs s.scroll_speed p) = false)
    (hcol : s.checkCollision (advanceObs s.scroll_speed o) = true) :
    Game.handleObstacles s =
      { s with game_over := true
               obstacles := advFlag s.height s.scroll_speed pre ++
                 advanceObs s.scroll_speed o :: post
               score := s.score + newDodges s.height s.scroll_speed pre
               dodged_count := (dcbFold s.dodged_count s.bullets
                 (newDodges s.height s.scroll_speed pre)).1
               bullets := (dcbFold s.dodged_count s.bullets
                 (newDodges s.height s.scroll_speed pre)).2 } :=
  handleObstacles_collision s pre post o hgo hobs hpre hcol

theorem claim4_witness :
    (sCol.game_over = false ∧
      sCol.obstacles = [obsDodge0] ++ obsHit :: [obsBehind] ∧
      (∀ p ∈ [obsDodge0],
        sCol.checkCollision (advanceObs sCol.scroll_speed p) = false) ∧
      sCol.checkCollision (advanceObs sCol.scroll_speed obsHit) = true) ∧
    Game.handleObstacles sCol =
      { sCol with game_over := true
                  obstacles := advFlag sCol.height sCol.scroll_speed [obsDodge0] ++
                    advanceObs sCol.scroll_speed obsHit :: [obsBehind]
                  score := sCol.score + newDodges sCol.height sCol.scroll_speed [obsDodge0]
                  dodged_count := (dcbFold sCol.dodged_count sCol.bullets
                    (newDodges sCol.height sCol.scroll_speed [obsDodge0])).1
                  bullets := (dcbFold sCol.dodged_count sCol.bullets
                    (newDodges sCol.height sCol.scroll_speed [obsDodge0])).2 } :=
  ⟨⟨rfl, rfl, sCol_pre_clear, sCol_hit⟩,
    claim4_interleaved sCol [obsDodge0] [obsBehind] obsHit rfl rfl
      sCol_pre_clear sCol_hit⟩

/-- C10: on the tick that detects a collision, the obstacles earlier in
spawn order that crossed the bottom this tick have already been scored (and
may have granted a bullet) before the GameOver transition; no obstacle is
removed (the collection keeps its length); and since every later operation
is a no-op after GameOver, the off-screen obstacles stay in the collection
forever. -/
theorem claim10_collision_tick (s : Game) (pre post : List Obstacle)
    (o : Obstacle) (hgo : s.game_over = false)
    (hobs : s.obstacles = pre ++ o :: post)
    (hpre : ∀ p ∈ pre, s.checkCollision (advanceObs s.scroll_speed p) = false)
    (hcol : s.checkCollision (advanceObs s.scroll_speed o) = true) :
    (Game.handleObstacles s).game_over = true ∧
    (Game.handleObstacles s).score =
      s.score + newDodges s.height s.scroll_speed pre ∧
    (Game.handleObstacles s).bullets = (dcbFold s.dodged_count s.bullets
      (newDodges s.height s.scroll_speed pre)).2 ∧
    (Game.handleObstacles s).obstacles = advFlag s.height s.scroll_speed pre ++
      advanceObs s.scroll_speed o :: post ∧
    (Game.handleObstacles s).obstacles.length = s.obstacles.length ∧
    ∀ ops : List Op,
      Game.runOps (Game.handleObstacles s) ops = Game.handleObstacles s := by
  have hco := handleObstacles_collision s pre post o hgo hobs hpre hcol
  rw [hco]
  refine ⟨rfl, rfl, rfl, rfl, ?_, fun ops => runOps_gameOver ops _ rfl⟩
  rw [hobs]
  simp [advFlag]

theorem claim10_witness :
    (sCol.game_over = false ∧
      sCol.obstacles = [obsDodge0] ++ obsHit :: [obsBehind] ∧
      (∀ p ∈ [obsDodge0],
        sCol.checkCollision (advanceObs sCol.scroll_speed p) = false) ∧
      sCol.checkCollision (advanceObs sCol.scroll_speed obsHit) = true) ∧
    ((Game.handleObstacles sCol).game_over = true ∧
      (Game.handleObstacles sCol).score =
        sCol.score + newDodges sCol.height sCol.scroll_speed [obsDodge0] ∧
      (Game.handleObstacles sCol).obstacles.length = sCol.obstacles.length ∧
      Game.runOps (Game.handleObstacles sCol) opsEx = Game.handleObstacles sCol) := by
  have h := claim10_collision_tick sCol [obsDodge0] [obsBehind] obsHit rfl rfl
    sCol_pre_clear sCol_hit
  exact ⟨⟨rfl, rfl, sCol_pre_clear, sCol_hit⟩,
    h.1, h.2.1, h.2.2.2.2.1, h.2.2.2.2.2 opsEx⟩

/-! ## Claim C6: tilt cooldown -/

theorem update_not_over_vertical_level (u : Game) (a τ : ℚ) (l x : ℤ)
    (h : u.game_over = false) :
    (Game.update u a τ l x).vertical_level =
      (Game.tiltStep { u with frame_count := u.frame_count + 1 } a τ).vertical_level := by
  unfold Game.update
  rw [if_neg (by rw [h]; exact Bool.false_ne_true)]
  rw [handleObstacles_vertical_level, spawnStep_vertical_level]

theorem update_not_over_last_tilt_time (u : Game) (a τ : ℚ) (l x : ℤ)
    (h : u.game_over = false) :
    (Game.update u a τ l x).last_tilt_time =
      (Game.tiltStep { u with frame_count := u.frame_count + 1 } a τ).last_tilt_time := by
  unfold Game.update
  rw [if_neg (by rw [h]; exact Bool.false_ne_true)]
  rw [handleObstacles_last_tilt_time, spawnStep_last_tilt_time]

theorem tiltStep_level_up (u : Game) (a τ : ℚ)
    (hcd : τ - u.last_tilt_time > tiltCooldown)
    (hac : a < -u.tilt_threshold) (hlv : u.vertical_level = 0) :
    (Game.tiltStep u a τ).vertical_level = 1 ∧
    (Game.tiltStep u a τ).last_tilt_time = τ := by
  unfold Game.tiltStep
  rw [if_pos hcd, if_pos hac, if_pos (by omega : u.vertical_level < 2)]
  constructor
  · simp only [Game.updatePlayerPos]
    rw [hlv]
    norm_num
  · rw [updatePlayerPos_last_tilt_time]

theorem tiltStep_cool_noop (u : Game) (a τ : ℚ)
    (h : ¬(τ - u.last_tilt_time > tiltCooldown)) : Game.tiltStep u a τ = u := by
  unfold Game.tiltStep
  rw [if_neg h]

theorem updatePlayerPos_level_clamped (u : Game) (h0 : 0 ≤ u.vertical_level)
    (h2 : u.vertical_level ≤ 2) :
    (Game.updatePlayerPos u).vertical_level = u.vertical_level := by
  simp only [Game.updatePlayerPos]
  rw [if_neg (by omega : ¬ u.vertical_level < 0),
    if_neg (by omega : ¬ u.vertical_level > 2)]

theorem update_gameOver (u : Game) (a τ : ℚ) (l x : ℤ)
    (h : u.game_over = true) : Game.update u a τ l x = u := by
  show (if u.game_over = true then u else _) = u
  rw [if_pos h]

theorem update_cool_noop_level (u : Game) (a τ : ℚ) (l x : ℤ)
    (hgf : u.game_over = false)
    (hnc : ¬(τ - u.last_tilt_time > tiltCooldown)) :
    (Game.update u a τ l x).vertical_level = u.vertical_level ∧
    (Game.update u a τ l x).last_tilt_time = u.last_tilt_time := by
  rw [update_not_over_vertical_level u a τ l x hgf,
    update_not_over_last_tilt_time u a τ l x hgf,
    tiltStep_cool_noop { u with frame_count := u.frame_count + 1 } a τ (by exact hnc)]
  exact ⟨rfl, rfl⟩

/-- C6: with the player at vertical level 0 and the cooldown elapsed, a tick
at time `T` with tilt below `-threshold` raises the vertical level to 1 and
resets the cooldown timer to `T`; a second such tick at `T + 0.1` (within
the 0.3 s cooldown) changes nothing — the level rises exactly once.
Moreover every tick that changes the vertical level of a well-formed state
(level within 0..2) sets the cooldown timer to that tick's time. -/
theorem claim6_tilt_cooldown (s : Game) (accel T : ℚ) (rl rx rl2 rx2 : ℤ)
    (hgo : s.game_over = false) (hlv : s.vertical_level = 0)
    (hac : accel < -s.tilt_threshold)
    (hcd : T - s.last_tilt_time > tiltCooldown) :
    ((Game.update s accel T rl rx).vertical_level = 1 ∧
     (Game.update s accel T rl rx).last_tilt_time = T ∧
     (Game.update (Game.update s accel T rl rx) accel (T + 1/10) rl2 rx2).vertical_level = 1 ∧
     (Game.update (Game.update s accel T rl rx) accel (T + 1/10) rl2 rx2).last_tilt_time = T) ∧
    (∀ (u : Game) (a τ : ℚ) (l x : ℤ), 0 ≤ u.vertical_level →
      u.vertical_level ≤ 2 →
      (Game.update u a τ l x).vertical_level ≠ u.vertical_level →
      (Game.update u a τ l x).last_tilt_time = τ) := by
  constructor
  · have h1 := tiltStep_level_up { s with frame_count := s.frame_count + 1 }
      accel T hcd hac hlv
    have e1 : (Game.update s accel T rl rx).vertical_level = 1 := by
      rw [update_not_over_vertical_level s accel T rl rx hgo]
      exact h1.1
    have e2 : (Game.update s accel T rl rx).last_tilt_time = T := by
      rw [update_not_over_last_tilt_time s accel T rl rx hgo]
      exact h1.2
    have hnc2 : ¬(T + 1/10 - (Game.update s accel T rl rx).last_tilt_time >
        tiltCooldown) := by
      rw [e2]
      unfold tiltCooldown
      intro hcon
      have harith : T + 1/10 - T = 1/10 := by ring
      rw [harith] at hcon
      norm_num at hcon
    refine ⟨e1, e2, ?_, ?_⟩
    · by_cases hg1 : (Game.update s accel T rl rx).game_over = true
      · rw [update_gameOver _ _ _ _ _ hg1]
        exact e1
      · have hg1f : (Game.update s accel T rl rx).game_over = false := by
          revert hg1
          cases (Game.update s accel T rl rx).game_over <;> simp
        rw [(update_cool_noop_level _ accel (T + 1/10) rl2 rx2 hg1f hnc2).1]
        exact e1
    · by_cases hg1 : (Game.update s accel T rl rx).game_over = true
      · rw [update_gameOver _ _ _ _ _ hg1]
        exact e2
      · have hg1f : (Game.update s accel T rl rx).game_over = false := by
          revert hg1
          cases (Game.update s accel T rl rx).game_over <;> simp
        rw [(update_cool_noop_level _ accel (T + 1/10) rl2 rx2 hg1f hnc2).2]
        exact e2
  · intro u a τ l x h0 h2 hne
    by_cases hg : u.game_over = true
    · exfalso
      apply hne
      rw [update_gameOver u a τ l x hg]
    · have hgf : u.game_over = false := by
        revert hg
        cases u.game_over <;> simp
      rw [update_not_over_vertical_level u a τ l x hgf] at hne
      rw [update_not_over_last_tilt_time u a τ l x hgf]
      set u2 : Game := { u with frame_count := u.frame_count + 1 } with hu2
      have huv : u2.vertical_level = u.vertical_level := by rw [hu2]
      have hclamp : (Game.updatePlayerPos u2).vertical_level = u.vertical_level :=
        (updatePlayerPos_level_clamped u2 (by rw [huv]; exact h0)
          (by rw [huv]; exact h2)).trans huv
      by_cases hcd2 : τ - u2.last_tilt_time > tiltCooldown
      · unfold Game.tiltStep at hne ⊢
        rw [if_pos hcd2] at hne ⊢
        by_cases hlt : a < -u2.tilt_threshold
        · rw [if_pos hlt] at hne ⊢
          by_cases h2lt : u2.vertical_level < 2
          · rw [if_pos h2lt] at hne ⊢
            rw [updatePlayerPos_last_tilt_time]
          · rw [if_neg h2lt] at hne ⊢
            exact absurd hclamp hne
        · rw [if_neg hlt] at hne ⊢
          by_cases hgt : a > u2.tilt_threshold
          · rw [if_pos hgt] at hne ⊢
            by_cases h0gt : u2.vertical_level > 0
            · rw [if_pos h0gt] at hne ⊢
              rw [updatePlayerPos_last_tilt_time]
            · rw [if_neg h0gt] at hne ⊢
              exact absurd hclamp hne
          · rw [if_neg hgt] at hne ⊢
            exact absurd hclamp hne
      · rw [tiltStep_cool_noop u2 a τ hcd2] at hne
        exact absurd huv hne

/-- A concrete active state at vertical level 0, cooldown long expired. -/
def sTilt : Game :=
  { width := 128, height := 64, scroll_speed := 1, spawn_interval := 28,
    max_obstacles := 3, obstacle_min_length := 28, obstacle_max_length := 48,
    score := 0, player_x := 64, player_y := 51, vertical_level := 0,
    bullets := 0, obstacles := [], frame_count := 0, dodged_count := 0,
    tilt_threshold := 3, last_tilt_time := 0, game_over := false }

theorem claim6_witness :
    (sTilt.game_over = false ∧ sTilt.vertical_level = 0 ∧
      (-4 : ℚ) < -sTilt.tilt_threshold ∧
      (1 : ℚ) - sTilt.last_tilt_time > tiltCooldown) ∧
    ((Game.update sTilt (-4) 1 0 0).vertical_level = 1 ∧
     (Game.update sTilt (-4) 1 0 0).last_tilt_time = 1 ∧
     (Game.update (Game.update sTilt (-4) 1 0 0) (-4) (1 + 1/10) 0 0).vertical_level = 1 ∧
     (Game.update (Game.update sTilt (-4) 1 0 0) (-4) (1 + 1/10) 0 0).last_tilt_time = 1) :=
  ⟨⟨rfl, rfl, by norm_num [sTilt], by norm_num [sTilt, tiltCooldown]⟩,
    (claim6_tilt_cooldown sTilt (-4) 1 0 0 0 0 rfl rfl (by norm_num [sTilt])
      (by norm_num [sTilt, tiltCooldown])).1⟩
